import Mathlib

/-!
Shallow embedding of `wizardfight-wasm` (`src/main.rs`): a simultaneous
wizard duel. Machine integers are modelled as `Nat` (u8 values, with
saturating arithmetic made explicit) and `Int` (i8 values). The mutable
`Game` struct becomes explicit state passing; `tick`, which in Rust
mutates `&mut self` and returns `Result<()>`, becomes a function
returning the new state together with an optional error message
(`none` = `Ok(())`; the error branches return the state unchanged,
mirroring the Rust early returns that happen before any mutation).
-/

namespace WizardFight

/-- The six actions of `enum Action`. -/
inductive Action where
  | Strike
  | Fireball
  | LightningBolt
  | ManaShield
  | Reflect
  | Concentrate
  deriving DecidableEq, Repr

/-- `Action::damage_amnt`, a `u8`. -/
def Action.damage_amnt : Action → Nat
  | .Strike => 2
  | .Fireball => 3
  | .LightningBolt => 5
  | .ManaShield => 0
  | .Reflect => 0
  | .Concentrate => 0

/-- `Action::mana_cost`, an `i8` (note `Concentrate => -4`). -/
def Action.mana_cost : Action → Int
  | .Strike => 0
  | .Fireball => 1
  | .LightningBolt => 2
  | .ManaShield => 1
  | .Reflect => 2
  | .Concentrate => -4

/-- `enum Side`. -/
inductive Side where
  | Left
  | Right
  | Neither
  deriving DecidableEq, Repr

/-- `struct Wizard`: `health: u8`, `mana: u8`. -/
structure Wizard where
  health : Nat
  mana : Nat
  deriving DecidableEq, Repr

/-- `Wizard::new()` (the code initialises 15 HP and 1 mana, whatever the
banner comment says). -/
def Wizard.new : Wizard := { health := 15, mana := 1 }

/-- `struct Game`: two wizards and `turn_count: u32`. -/
structure Game where
  left_wizard : Wizard
  right_wizard : Wizard
  turn_count : Nat
  deriving DecidableEq, Repr

/-- `Game::new()`. -/
def Game.new : Game :=
  { left_wizard := Wizard.new, right_wizard := Wizard.new, turn_count := 0 }

/-- `u8::saturating_add` on `Nat` values in `[0,255]`. -/
def u8SatAdd (a b : Nat) : Nat := min (a + b) 255

/-- The Rust cast `x as u8` applied to an `i8` value: two's-complement
reinterpretation, so `-4 as u8 = 252`. -/
def i8AsU8 (m : Int) : Nat := (m % 256).toNat

/-- The Rust expression `(1. / (m as f64)) as u8` for an `i8` argument `m`,
characterised exactly: `1.0 / (m as f64)` is the IEEE-754 double quotient
(exact `-1.0` at `m = -1`, exact `1.0` at `m = 1`, `+inf` at `m = 0`, a
value in `(0, 1)` for `2 ≤ m ≤ 127` and in `[-1, 0)` for `-128 ≤ m ≤ -2`),
and the saturating float-to-int cast `as u8` truncates toward zero,
clamping below `0` to `0` and above `255` to `255`.  Hence the result is
`255` at `m = 0`, `1` at `m = 1`, and `0` for every other `i8` value —
in particular `0` for every negative argument. -/
def recipAsU8 (m : Int) : Nat :=
  if m = 0 then 255 else if m = 1 then 1 else 0

/-- `Game::damage_wizard`: `saturating_sub` on the chosen wizard's health
(`Nat` truncated subtraction is exactly `max(0, h - d)`). -/
def Game.damage_wizard (g : Game) (side : Side) (damage : Nat) : Game :=
  if side = .Left then
    { g with left_wizard := { g.left_wizard with
        health := g.left_wizard.health - damage } }
  else if side = .Right then
    { g with right_wizard := { g.right_wizard with
        health := g.right_wizard.health - damage } }
  else g

/-- `Game::add_mana`: the added amount is `(1. / (mana as f64)) as u8`
(the commented "stupid hack to flip the sign"), then `saturating_add`. -/
def Game.add_mana (g : Game) (side : Side) (mana : Int) : Game :=
  let amt := recipAsU8 mana
  if side = .Left then
    { g with left_wizard := { g.left_wizard with
        mana := u8SatAdd g.left_wizard.mana amt } }
  else if side = .Right then
    { g with right_wizard := { g.right_wizard with
        mana := u8SatAdd g.right_wizard.mana amt } }
  else g

/-- `Game::remove_mana`: `saturating_sub` on the chosen wizard's mana. -/
def Game.remove_mana (g : Game) (side : Side) (mana_cost : Nat) : Game :=
  if side = .Left then
    { g with left_wizard := { g.left_wizard with
        mana := g.left_wizard.mana - mana_cost } }
  else if side = .Right then
    { g with right_wizard := { g.right_wizard with
        mana := g.right_wizard.mana - mana_cost } }
  else g

/-- `Game::game_completed`. -/
def Game.game_completed (g : Game) : Bool × Side :=
  if g.left_wizard.health = 0 ∧ g.right_wizard.health = 0 then (true, .Neither)
  else if g.left_wizard.health = 0 then (true, .Right)
  else if g.right_wizard.health = 0 then (true, .Left)
  else (false, .Neither)

/-- `Game::evaluate`: resolve `attacker`'s action against `defender`'s
action, the attacker sitting on `attacker_side`. -/
def Game.evaluate (g : Game) (attacker_side : Side)
    (attacker defender : Action) : Game :=
  let defender_side : Side := if attacker_side = .Left then .Right else .Left
  match attacker with
  | .Strike =>
      if defender = .Reflect then
        g.damage_wizard attacker_side attacker.damage_amnt
      else if defender = .ManaShield then g
      else g.damage_wizard defender_side attacker.damage_amnt
  | .Fireball =>
      if defender = .Reflect then
        g.damage_wizard attacker_side attacker.damage_amnt
      else if defender = .ManaShield then g
      else g.damage_wizard defender_side attacker.damage_amnt
  | .LightningBolt =>
      if defender = .Reflect then
        g.damage_wizard attacker_side attacker.damage_amnt
      else if defender = .ManaShield then g
      else g.damage_wizard defender_side attacker.damage_amnt
  | .Concentrate => g.add_mana attacker_side attacker.mana_cost
  | _ => g

/-- The first filter in `Game::tick`: for `Fireball`, `LightningBolt`,
`ManaShield` and `Reflect` the left wizard's mana is compared with
`rightaction.mana_cost() as u8` (the right action's cost, as written in
the source). -/
def Game.leftIllegal (g : Game) (leftaction rightaction : Action) : Bool :=
  match leftaction with
  | .Fireball | .LightningBolt | .ManaShield | .Reflect =>
      decide (g.left_wizard.mana < i8AsU8 rightaction.mana_cost)
  | _ => false

/-- The second filter in `Game::tick`: for the same four actions the right
wizard's mana is compared with `rightaction.mana_cost() as u8`. -/
def Game.rightIllegal (g : Game) (rightaction : Action) : Bool :=
  match rightaction with
  | .Fireball | .LightningBolt | .ManaShield | .Reflect =>
      decide (g.right_wizard.mana < i8AsU8 rightaction.mana_cost)
  | _ => false

/-- `Game::tick`: filter illegal moves (early `Err` returns, before any
mutation), then deduct costs, evaluate both actions, and apply the
end-of-turn `add_mana(side, -1)` to both sides. `none` models `Ok(())`. -/
def Game.tick (g : Game) (leftaction rightaction : Action) :
    Game × Option String :=
  if g.leftIllegal leftaction rightaction = true then
    (g, some "Left wizard tried to do an illegal move.")
  else if g.rightIllegal rightaction = true then
    (g, some "Right wizard did not have enough mana.")
  else
    let g1 := if leftaction ≠ .Concentrate then
        g.remove_mana .Left (i8AsU8 leftaction.mana_cost) else g
    let g2 := if rightaction ≠ .Concentrate then
        g1.remove_mana .Right (i8AsU8 rightaction.mana_cost) else g1
    let g3 := g2.evaluate .Left leftaction rightaction
    let g4 := g3.evaluate .Right rightaction leftaction
    let g5 := g4.add_mana .Left (-1)
    let g6 := g5.add_mana .Right (-1)
    (g6, none)

end WizardFight

namespace WizardFight

/-! Helper lemmas shared by the turn-count and mana theorems. -/

lemma damage_wizard_turn_count (g : Game) (s : Side) (d : Nat) :
    (g.damage_wizard s d).turn_count = g.turn_count := by
  unfold Game.damage_wizard; split_ifs <;> rfl

lemma add_mana_turn_count (g : Game) (s : Side) (m : Int) :
    (g.add_mana s m).turn_count = g.turn_count := by
  unfold Game.add_mana; split_ifs <;> rfl

lemma remove_mana_turn_count (g : Game) (s : Side) (c : Nat) :
    (g.remove_mana s c).turn_count = g.turn_count := by
  unfold Game.remove_mana; split_ifs <;> rfl

lemma evaluate_turn_count (g : Game) (s : Side) (a d : Action) :
    (g.evaluate s a d).turn_count = g.turn_count := by
  cases a <;> unfold Game.evaluate <;>
    simp [damage_wizard_turn_count, add_mana_turn_count] <;>
    split_ifs <;> simp [damage_wizard_turn_count]

lemma damage_wizard_mana (g : Game) (s : Side) (d : Nat) :
    (g.damage_wizard s d).left_wizard.mana = g.left_wizard.mana ∧
    (g.damage_wizard s d).right_wizard.mana = g.right_wizard.mana := by
  unfold Game.damage_wizard; split_ifs <;> simp

lemma add_mana_mana_le (g : Game) (s : Side) (m : Int) (hm : m < 0) :
    (g.add_mana s m).left_wizard.mana ≤ g.left_wizard.mana ∧
    (g.add_mana s m).right_wizard.mana ≤ g.right_wizard.mana := by
  have h0 : recipAsU8 m = 0 := by unfold recipAsU8; split_ifs <;> omega
  unfold Game.add_mana; split_ifs <;> simp [h0, u8SatAdd]

lemma remove_mana_mana_le (g : Game) (s : Side) (c : Nat) :
    (g.remove_mana s c).left_wizard.mana ≤ g.left_wizard.mana ∧
    (g.remove_mana s c).right_wizard.mana ≤ g.right_wizard.mana := by
  unfold Game.remove_mana; split_ifs <;> simp

lemma mana_le_trans {a b c : Game}
    (h1 : a.left_wizard.mana ≤ b.left_wizard.mana ∧
      a.right_wizard.mana ≤ b.right_wizard.mana)
    (h2 : b.left_wizard.mana ≤ c.left_wizard.mana ∧
      b.right_wizard.mana ≤ c.right_wizard.mana) :
    a.left_wizard.mana ≤ c.left_wizard.mana ∧
    a.right_wizard.mana ≤ c.right_wizard.mana :=
  ⟨le_trans h1.1 h2.1, le_trans h1.2 h2.2⟩

lemma evaluate_mana_le (g : Game) (s : Side) (a d : Action) :
    (g.evaluate s a d).left_wizard.mana ≤ g.left_wizard.mana ∧
    (g.evaluate s a d).right_wizard.mana ≤ g.right_wizard.mana := by
  cases a <;> simp only [Game.evaluate]
  case Concentrate => exact add_mana_mana_le g s _ (by decide)
  all_goals first
    | exact ⟨le_refl _, le_refl _⟩
    | (split_ifs <;> simp [damage_wizard_mana])

/-- Claim C1 (code bug): legality is NOT side-local in the code. With the
left wizard at 1 mana — enough for Fireball's own cost of 1 — the same
left action `Fireball` passes the filter when the right side plays
`Strike` but is rejected as "illegal" when the right side plays
`LightningBolt`, because `tick` compares the left wizard's mana against
the RIGHT action's `mana_cost as u8`. -/
theorem legality_not_side_local :
    ((Game.mk ⟨15, 1⟩ ⟨15, 5⟩ 0).tick .Fireball .Strike).2 = none ∧
    (((Game.mk ⟨15, 1⟩ ⟨15, 5⟩ 0).tick .Fireball .LightningBolt).2).isSome = true ∧
    i8AsU8 (Action.mana_cost .Fireball) ≤ 1 := by decide

/-- Claim C2 (code bug): `tick` never touches `turn_count` — on success as
well as on rejection the counter is unchanged, contradicting the spec's
"increases by exactly 1 per successful resolved turn". -/
theorem tick_never_increments_turn_count (g : Game) (la ra : Action) :
    ((g.tick la ra).1).turn_count = g.turn_count := by
  by_cases h1 : g.leftIllegal la ra = true
  · simp [Game.tick, h1]
  · by_cases h2 : g.rightIllegal ra = true
    · simp [Game.tick, h1, h2]
    · simp only [Game.tick, h1, h2, if_false, if_true]
      simp [add_mana_turn_count, evaluate_turn_count]
      split_ifs <;> simp [remove_mana_turn_count]

/-- Claim C3 (code bug): the end-of-turn passive gain adds 0, not 1: the
added amount is `(1. / (-1 as f64)) as u8 = 0`. A successfully resolved
`Strike` vs `Strike` turn from the initial state leaves both manas at 1. -/
theorem passive_gain_is_zero :
    (Game.new.tick .Strike .Strike).2 = none ∧
    ((Game.new.tick .Strike .Strike).1).left_wizard.mana =
      Game.new.left_wizard.mana ∧
    ((Game.new.tick .Strike .Strike).1).right_wizard.mana =
      Game.new.right_wizard.mana ∧
    recipAsU8 (-1) = 0 := by decide

/-- Claim C4 (code bug): Concentrate's evaluation adds 0 mana, not 4: the
added amount is `(1. / (-4 as f64)) as u8 = 0`, so evaluating Concentrate
leaves the state unchanged and a resolved Concentrate turn leaves the
attacker's mana where it was. -/
theorem concentrate_gains_zero_mana :
    (Game.new.tick .Concentrate .Strike).2 = none ∧
    ((Game.new.tick .Concentrate .Strike).1).left_wizard.mana =
      Game.new.left_wizard.mana ∧
    Game.new.evaluate .Left .Concentrate .Strike = Game.new ∧
    recipAsU8 (Action.mana_cost .Concentrate) = 0 := by decide

/-- Claim C5 (confirmed): atomicity on rejection — whenever `tick` returns
an error, the returned state is the pre-turn state, every field included
(the early `Err` returns happen before any mutation). -/
theorem tick_err_atomic (g : Game) (la ra : Action)
    (h : ((g.tick la ra).2).isSome = true) : (g.tick la ra).1 = g := by
  by_cases h1 : g.leftIllegal la ra = true
  · simp [Game.tick, h1]
  · by_cases h2 : g.rightIllegal ra = true
    · simp [Game.tick, h1, h2]
    · simp [Game.tick, h1, h2] at h

/-- Witness for C5: from the fresh game (1 mana), `LightningBolt` vs
`Reflect` is rejected and the state comes back identical. -/
theorem tick_err_atomic_witness :
    ((Game.new.tick .LightningBolt .Reflect).2).isSome = true ∧
    (Game.new.tick .LightningBolt .Reflect).1 = Game.new :=
  ⟨by decide, tick_err_atomic Game.new .LightningBolt .Reflect (by decide)⟩

/-- Claim C6 (confirmed): for a damaging attack `a` (Strike, Fireball or
LightningBolt) by either side, `evaluate` follows exactly the claimed case
analysis on the defender's action `b`: against `Reflect` the attacker's
own health drops by `a`'s damage (truncated at 0, i.e. `max(0, h - d)`)
and the defender is untouched; against `ManaShield` nothing changes;
otherwise the defender's health drops by `a`'s damage and the attacker is
untouched. -/
theorem evaluate_damaging_case_analysis (g : Game) (a b : Action)
    (ha : a = .Strike ∨ a = .Fireball ∨ a = .LightningBolt) :
    ((b = .Reflect →
        (g.evaluate .Left a b).left_wizard.health =
          g.left_wizard.health - a.damage_amnt ∧
        (g.evaluate .Left a b).left_wizard.mana = g.left_wizard.mana ∧
        (g.evaluate .Left a b).right_wizard = g.right_wizard) ∧
     (b = .ManaShield → g.evaluate .Left a b = g) ∧
     (b ≠ .Reflect → b ≠ .ManaShield →
        (g.evaluate .Left a b).right_wizard.health =
          g.right_wizard.health - a.damage_amnt ∧
        (g.evaluate .Left a b).right_wizard.mana = g.right_wizard.mana ∧
        (g.evaluate .Left a b).left_wizard = g.left_wizard)) ∧
    ((b = .Reflect →
        (g.evaluate .Right a b).right_wizard.health =
          g.right_wizard.health - a.damage_amnt ∧
        (g.evaluate .Right a b).right_wizard.mana = g.right_wizard.mana ∧
        (g.evaluate .Right a b).left_wizard = g.left_wizard) ∧
     (b = .ManaShield → g.evaluate .Right a b = g) ∧
     (b ≠ .Reflect → b ≠ .ManaShield →
        (g.evaluate .Right a b).left_wizard.health =
          g.left_wizard.health - a.damage_amnt ∧
        (g.evaluate .Right a b).left_wizard.mana = g.left_wizard.mana ∧
        (g.evaluate .Right a b).right_wizard = g.right_wizard)) := by
  rcases ha with rfl | rfl | rfl <;> cases b <;>
    simp [Game.evaluate, Game.damage_wizard, Action.damage_amnt]

/-- Witness for C6: Fireball into Reflect burns the attacker. -/
theorem evaluate_damaging_case_analysis_witness :
    (Game.new.evaluate .Left .Fireball .Reflect).left_wizard.health =
      Game.new.left_wizard.health - Action.damage_amnt .Fireball :=
  (((evaluate_damaging_case_analysis Game.new .Fireball .Reflect
      (Or.inr (Or.inl rfl))).1.1) rfl).1

/-- Claim C7 (confirmed): the duel is terminal iff some health is 0, and
`game_completed` classifies exactly as claimed: both dead → `Neither`,
left dead only → `Right` wins, right dead only → `Left` wins, otherwise
non-terminal. -/
theorem game_completed_classification (g : Game) :
    (g.game_completed.1 = true ↔
      g.left_wizard.health = 0 ∨ g.right_wizard.health = 0) ∧
    (g.left_wizard.health = 0 ∧ g.right_wizard.health = 0 →
        g.game_completed = (true, Side.Neither)) ∧
    (g.left_wizard.health = 0 ∧ 0 < g.right_wizard.health →
        g.game_completed = (true, Side.Right)) ∧
    (0 < g.left_wizard.health ∧ g.right_wizard.health = 0 →
        g.game_completed = (true, Side.Left)) ∧
    (0 < g.left_wizard.health ∧ 0 < g.right_wizard.health →
        g.game_completed = (false, Side.Neither)) := by
  unfold Game.game_completed
  split_ifs with h1 h2 h3 <;> simp_all

/-- Witness for C7: left dead, right alive → the right wizard wins. -/
theorem game_completed_classification_witness :
    (Game.mk ⟨0, 1⟩ ⟨3, 0⟩ 0).game_completed = (true, Side.Right) :=
  (game_completed_classification _).2.2.1 ⟨rfl, by decide⟩

/-- Claim C8 (confirmed): the two evaluation steps of a turn commute — for
every state and pair of actions, evaluating left-then-right equals
evaluating right-then-left. -/
theorem evaluate_left_right_commute (g : Game) (la ra : Action) :
    (g.evaluate .Left la ra).evaluate .Right ra la =
      (g.evaluate .Right ra la).evaluate .Left la ra := by
  obtain ⟨⟨hl, ml⟩, ⟨hr, mr⟩, t⟩ := g
  cases la <;> cases ra <;>
    simp [Game.evaluate, Game.damage_wizard, Game.add_mana,
      Action.damage_amnt, Action.mana_cost, u8SatAdd, recipAsU8]

/-- Claim C9's error condition exactly as the claim states it, with "the
cost of the RIGHT wizard's action" read as the `mana_cost` value itself
(an integer, `-4` for Concentrate), the wizard's mana compared with it as
integers. -/
def claimedErrorCond (g : Game) (la ra : Action) : Prop :=
  ((la = Action.Fireball ∨ la = Action.LightningBolt ∨
      la = Action.ManaShield ∨ la = Action.Reflect) ∧
    (g.left_wizard.mana : Int) < ra.mana_cost) ∨
  ((ra = Action.Fireball ∨ ra = Action.LightningBolt ∨
      ra = Action.ManaShield ∨ ra = Action.Reflect) ∧
    (g.right_wizard.mana : Int) < ra.mana_cost)

instance (g : Game) (la ra : Action) : Decidable (claimedErrorCond g la ra) := by
  unfold claimedErrorCond; infer_instance

/-- Counterexample to C9 as stated: left plays Fireball with 5 mana while
right plays Concentrate (cost `-4`). The claimed condition is false
(5 < -4 fails and Concentrate is not among the four checked actions), yet
`tick` rejects the turn, because the code compares 5 with
`-4 as u8 = 252`. -/
theorem tick_error_condition_counterexample :
    (((Game.mk ⟨15, 5⟩ ⟨15, 5⟩ 0).tick .Fireball .Concentrate).2).isSome = true ∧
    ¬ claimedErrorCond (Game.mk ⟨15, 5⟩ ⟨15, 5⟩ 0) .Fireball .Concentrate := by
  decide

/-- Claim C9 (amended): `tick` errors iff either (a) the left action is
Fireball/LightningBolt/ManaShield/Reflect and the left wizard's mana is
below the RIGHT action's cost reinterpreted by the `i8 → u8` cast (so
Concentrate counts as 252, not `-4`), or (b) the right action is one of
those four and the right wizard's mana is below that action's own cost. -/
theorem tick_error_condition (g : Game) (la ra : Action) :
    ((g.tick la ra).2).isSome = true ↔
      (((la = Action.Fireball ∨ la = Action.LightningBolt ∨
          la = Action.ManaShield ∨ la = Action.Reflect) ∧
         g.left_wizard.mana < i8AsU8 ra.mana_cost) ∨
       ((ra = Action.Fireball ∨ ra = Action.LightningBolt ∨
          ra = Action.ManaShield ∨ ra = Action.Reflect) ∧
         (g.right_wizard.mana : Int) < ra.mana_cost)) := by
  cases la <;> cases ra <;>
    simp [Game.tick, Game.leftIllegal, Game.rightIllegal, i8AsU8,
      Action.mana_cost] <;> split_ifs <;> simp_all

/-- Claim C10 (confirmed): mana never increases across `tick`, Ok or Err —
every `add_mana` call in a turn receives a negative argument and hence
adds `(1. / negative) as u8 = 0`, while `remove_mana` only subtracts. -/
theorem tick_mana_nonincreasing (g : Game) (la ra : Action) :
    ((g.tick la ra).1).left_wizard.mana ≤ g.left_wizard.mana ∧
    ((g.tick la ra).1).right_wizard.mana ≤ g.right_wizard.mana := by
  by_cases h1 : g.leftIllegal la ra = true
  · simp [Game.tick, h1]
  by_cases h2 : g.rightIllegal ra = true
  · simp [Game.tick, h1, h2]
  unfold Game.tick
  rw [if_neg h1, if_neg h2]
  dsimp only
  refine mana_le_trans (add_mana_mana_le _ .Right (-1) (by decide))
    (mana_le_trans (add_mana_mana_le _ .Left (-1) (by decide))
      (mana_le_trans (evaluate_mana_le _ .Right ra la)
        (mana_le_trans (evaluate_mana_le _ .Left la ra) ?_)))
  split_ifs <;>
    first
      | exact mana_le_trans (remove_mana_mana_le _ _ _)
          (mana_le_trans (remove_mana_mana_le _ _ _) ⟨le_refl _, le_refl _⟩)
      | exact mana_le_trans (remove_mana_mana_le _ _ _) ⟨le_refl _, le_refl _⟩
      | exact ⟨le_refl _, le_refl _⟩

end WizardFight
